import Mathlib

/-!
Verification of the Fortran record-file module (src/fortfile.py).

The module reads and writes files made of unformatted sequential records:
each record is a payload bracketed by two identical fixed-width signed
control words holding the payload's byte length.  We embed the module
shallowly: the byte stream is a List Nat (one entry per byte), a numpy
dtype is an element codec (item size plus encode/decode, the external
numeric layer the module delegates to via ndarray.tofile / np.fromfile),
and the Python exceptions reachable from the module are an inductive type.
Write operations return the bytes they emitted to the stream together with
an optional exception; read operations consume a byte list and return the
decoded result and the remaining stream, or an exception.
-/

/-- Python exceptions reachable from the module: FortranIOException with
its message, and the builtin exceptions the code paths can raise. -/
inductive PyErr where
  | fioErr (msg : String)
  | typeErr (msg : String)
  | valueErr (msg : String)
  | indexErr (msg : String)
  | attrErr (msg : String)
  | nameErr (msg : String)
  deriving DecidableEq

/-- Decidable equality for Except results, so concrete runs of the
embedded operations can be checked by evaluation. -/
instance {ε α : Type} [DecidableEq ε] [DecidableEq α] : DecidableEq (Except ε α) := fun a b =>
  match a, b with
  | Except.error e, Except.error f =>
    match decEq e f with
    | isTrue h => isTrue (h ▸ rfl)
    | isFalse h => isFalse fun hh => h (by cases hh; rfl)
  | Except.ok x, Except.ok y =>
    match decEq x y with
    | isTrue h => isTrue (h ▸ rfl)
    | isFalse h => isFalse fun hh => h (by cases hh; rfl)
  | Except.error _, Except.ok _ => isFalse fun hh => by cases hh
  | Except.ok _, Except.error _ => isFalse fun hh => by cases hh

/-- Little-endian byte encoding of a natural number in W bytes, as
np.array([n], dtype=i4/i8).tofile lays out a native-order integer. -/
def encodeLE : Nat → Nat → List Nat
  | 0, _ => []
  | W + 1, n => n % 256 :: encodeLE W (n / 256)

/-- Little-endian byte-list decoding, inverse of encodeLE on W bytes. -/
def decodeLE : List Nat → Nat
  | [] => 0
  | b :: bs => b + 256 * decodeLE bs

/-- Reinterpretation of the unsigned W-byte value u as a signed
two's-complement integer, as np.fromfile does for dtype i4 / i8. -/
def toSigned (W u : Nat) : Int :=
  if u < 2 ^ (8 * W - 1) then (u : Int) else (u : Int) - 2 ^ (8 * W)

/-- Largest value of the signed control dtype:
np.iinfo(self._control_dtype).max, i.e. 2^31 - 1 for W = 4 and
2^63 - 1 for W = 8. -/
def iinfoMax (W : Nat) : Nat := 2 ^ (8 * W - 1) - 1

/-- A numpy element dtype, modelled as the external numeric codec the
channel relies on: an item size in bytes together with the encode and
decode routines used by ndarray.tofile and np.fromfile.  The two proof
fields record the codec contract numpy provides: each encoded item
occupies exactly itemsize bytes, and decoding inverts encoding. -/
structure Dtype (α : Type) where
  itemsize : Nat
  enc : α → List Nat
  dec : List Nat → α
  itemsize_pos : 0 < itemsize
  enc_length : ∀ v, (enc v).length = itemsize
  dec_enc : ∀ v, dec (enc v) = v

/-- The dtype of single unsigned bytes (numpy u1): identity codec on one
byte. -/
def byteDtype : Dtype Nat :=
  ⟨1, fun v => [v], fun bs => bs.headD 0, Nat.one_pos, fun _ => rfl, fun _ => rfl⟩

/-- A three-byte dtype (element size 3), used to exercise the divisibility
check exactly as the spec's 10-bytes-by-3 example does. -/
def tripleDtype : Dtype (Nat × Nat × Nat) :=
  ⟨3, fun v => [v.1, v.2.1, v.2.2],
    fun bs => (bs.headD 0, (bs.drop 1).headD 0, (bs.drop 2).headD 0),
    by norm_num, fun _ => rfl, fun _ => rfl⟩

/-- np.fromfile(file, dtype, count) for count ≥ 0: read up to count
complete items from the stream, returning the decoded items in file order
and the unconsumed rest of the stream; at end of data fewer items than
requested are returned. -/
def readItems {α : Type} (d : Dtype α) : Nat → List Nat → List α × List Nat
  | 0, s => ([], s)
  | k + 1, s =>
    if s.length < d.itemsize then ([], s)
    else
      let rest := readItems d k (s.drop d.itemsize)
      (d.dec (s.take d.itemsize) :: rest.1, rest.2)

/-- FortranFile._read_control: n, = np.fromfile(file, control_dtype, 1).
Unpacking an empty result raises ValueError; otherwise the W bytes are
decoded as a signed integer of the control dtype. -/
def readControl (W : Nat) (s : List Nat) : Except PyErr (Int × List Nat) :=
  if s.length < W then Except.error (PyErr.valueErr "not enough values to unpack")
  else Except.ok (toSigned W (decodeLE (s.take W)), s.drop W)

/-- Result of FortranFile.read_record: a single unwrapped value when the
item count is one, otherwise an ndarray of the decoded items. -/
inductive ReadResult (α : Type) where
  | scalar (v : α)
  | array (vs : List α)
  deriving DecidableEq

/-- Item count handed to np.fromfile: nitems as computed by read_record;
numpy treats a negative count as a request to read to the end of the
data. -/
def countOf (nitems : Int) (s : List Nat) (isz : Nat) : Nat :=
  if nitems < 0 then s.length / isz else nitems.toNat

/-- Trailing part of FortranFile.read_record (lines 94-98): read the
second control word, raise on head/tail mismatch, otherwise return the
data. -/
def readTail {α : Type} (W : Nat) (nbytes : Int) (data : ReadResult α) (s : List Nat) :
    Except PyErr (ReadResult α × List Nat) :=
  match readControl W s with
  | Except.error e => Except.error e
  | Except.ok (nbytes2, s3) =>
    if nbytes ≠ nbytes2 then Except.error (PyErr.fioErr "Record head and tail mismatch")
    else Except.ok (data, s3)

/-- Body of FortranFile.read_record after the leading control word
(lines 85-98): divisibility check, payload read, scalar unwrap for
nitems ≤ 1 (indexing [0] into an empty result raises IndexError), then
the trailing control word check. -/
def readBody {α : Type} (W : Nat) (d : Dtype α) (nbytes : Int) (s1 : List Nat) :
    Except PyErr (ReadResult α × List Nat) :=
  if Int.fmod nbytes (d.itemsize : Int) ≠ 0 then
    Except.error (PyErr.fioErr "Record size not valid for data type")
  else
    let nitems := Int.fdiv nbytes (d.itemsize : Int)
    let res := readItems d (countOf nitems s1 d.itemsize) s1
    if 1 < nitems then readTail W nbytes (ReadResult.array res.1) res.2
    else
      match res.1 with
      | [] => Except.error (PyErr.indexErr "index 0 is out of bounds for axis 0 with size 0")
      | v :: _ => readTail W nbytes (ReadResult.scalar v) res.2

/-- FortranFile.read_record(dtype): mode check, leading control word, then
the record body.  mode is the string the file was opened with. -/
def read_record {α : Type} (mode : String) (W : Nat) (d : Dtype α) (s : List Nat) :
    Except PyErr (ReadResult α × List Nat) :=
  if mode ≠ "r" ∧ mode ≠ "rb" then Except.error (PyErr.fioErr "Not in read mode")
  else
    match readControl W s with
    | Except.error e => Except.error e
    | Except.ok (nbytes, s1) => readBody W d nbytes s1

/-- A Python object handed to the write methods, as far as the module can
observe it: a numpy ndarray carrying its buffer bytes; a memoryview-like
object that exposes nbytes but has no tofile method; or a plain object
with neither attribute. -/
inductive PyBuf where
  | ndarray (data : List Nat)
  | memview (data : List Nat)
  | plainObj
  deriving DecidableEq

/-- Attribute access obj.nbytes: the byte length for ndarray and
memoryview, AttributeError otherwise. -/
def PyBuf.nbytesAttr : PyBuf → Except PyErr Nat
  | PyBuf.ndarray data => Except.ok data.length
  | PyBuf.memview data => Except.ok data.length
  | PyBuf.plainObj => Except.error (PyErr.attrErr "object has no attribute nbytes")

/-- Method call obj.tofile(file): the buffer bytes for an ndarray,
AttributeError for every other object. -/
def PyBuf.tofileBytes : PyBuf → Except PyErr (List Nat)
  | PyBuf.ndarray data => Except.ok data
  | _ => Except.error (PyErr.attrErr "object has no attribute tofile")

/-- FortranFile.write_ndarray(array): mode check, isinstance(array,
np.ndarray) check (raised before any control bytes are written), overflow
check against the control dtype's maximum, then control word, payload,
control word.  Returns the bytes emitted to the stream and an optional
exception; on every error branch nothing has been emitted. -/
def write_ndarray (mode : String) (W : Nat) (array : PyBuf) : List Nat × Option PyErr :=
  if mode ≠ "w" ∧ mode ≠ "wb" then ([], some (PyErr.fioErr "Not in write mode"))
  else
    match array with
    | PyBuf.ndarray data =>
      if data.length > iinfoMax W then
        ([], some (PyErr.fioErr "Record size exceeds maximum"))
      else
        (encodeLE W data.length ++ data ++ encodeLE W data.length, none)
    | _ => ([], some (PyErr.typeErr "array is not an ndarray"))

/-- A Python iterable as the write_ndarrays loops observe it: the sequence
of elements its first traversal produces and the sequence its second
traversal produces.  A list produces the same elements on both
traversals; a single-pass generator produces its elements once and is
exhausted for the second loop. -/
structure PyIterable where
  firstPass : List PyBuf
  secondPass : List PyBuf

/-- A Python list: every traversal yields the same elements. -/
def PyIterable.ofList (l : List PyBuf) : PyIterable := ⟨l, l⟩

/-- A single-pass iterator (generator): the first traversal yields its
elements, the second yields nothing. -/
def PyIterable.ofGenerator (l : List PyBuf) : PyIterable := ⟨l, []⟩

/-- First loop of FortranFile.write_ndarrays: nbytes += array.nbytes over
the iterable; accessing nbytes on an object without it raises. -/
def sumNbytes : List PyBuf → Except PyErr Nat
  | [] => Except.ok 0
  | a :: rest =>
    match PyBuf.nbytesAttr a with
    | Except.error e => Except.error e
    | Except.ok n =>
      match sumNbytes rest with
      | Except.error e => Except.error e
      | Except.ok m => Except.ok (n + m)

/-- Second loop of FortranFile.write_ndarrays: array.tofile(file) over the
iterable; a failing element aborts the loop with the bytes written so far
already on the stream. -/
def emitAll : List PyBuf → List Nat × Option PyErr
  | [] => ([], none)
  | a :: rest =>
    match PyBuf.tofileBytes a with
    | Except.error e => ([], some e)
    | Except.ok bs =>
      let tail := emitAll rest
      (bs ++ tail.1, tail.2)

/-- FortranFile.write_ndarrays(arrays): mode check, a first traversal of
the iterable summing nbytes, overflow check, then the leading control
word, a second traversal emitting each payload, and the trailing control
word.  Returns the bytes emitted and an optional exception; an exception
during the second traversal leaves the leading control word and any
already-emitted payload bytes on the stream. -/
def write_ndarrays (mode : String) (W : Nat) (arrays : PyIterable) : List Nat × Option PyErr :=
  if mode ≠ "w" ∧ mode ≠ "wb" then ([], some (PyErr.fioErr "Not in write mode"))
  else
    match sumNbytes arrays.firstPass with
    | Except.error e => ([], some e)
    | Except.ok nbytes =>
      if nbytes > iinfoMax W then
        ([], some (PyErr.fioErr "Record size exceeds maximum"))
      else
        match emitAll arrays.secondPass with
        | (payload, some e) => (encodeLE W nbytes ++ payload, some e)
        | (payload, none) => (encodeLE W nbytes ++ payload ++ encodeLE W nbytes, none)

/-- FortranFile.write_value(value, dtype): after converting dtype, the
body evaluates np.array([x, ], dtype=dtype) — but the name x is unbound
(the parameter is called value), so every call raises NameError before
anything is written to the stream. -/
def write_value {α : Type} (mode : String) (W : Nat) (value : α) (d : Dtype α) :
    List Nat × Option PyErr :=
  ([], some (PyErr.nameErr "name x is not defined"))

/-- FortranFile.write_values(values, dtype) for a dtype argument that is
an iterable of dtypes (the heterogeneous branch, lines 175-182):
np.array(tuple(values), dtype=fields) packs each value with its own
dtype and raises ValueError when the number of fields differs from the
number of values; the packed one-element structured array is then handed
to write_ndarray. -/
def write_values {α : Type} (mode : String) (W : Nat) (values : List α)
    (dtypes : List (Dtype α)) : List Nat × Option PyErr :=
  if values.length ≠ dtypes.length then
    ([], some (PyErr.valueErr "could not assign tuple to structure"))
  else
    write_ndarray mode W
      (PyBuf.ndarray (List.flatten (List.zipWith (fun d v => d.enc v) dtypes values)))

/-- The byte stream of a record whose payload encodes vs but whose
trailing control word has been set to n2: leading control word equal to
the payload length, the payload, then a trailer encoding n2. -/
def taintedFrame {α : Type} (W : Nat) (d : Dtype α) (vs : List α) (n2 : Nat) : List Nat :=
  encodeLE W ((vs.map d.enc).flatten).length ++ (vs.map d.enc).flatten ++ encodeLE W n2

/-- The byte stream of one well-formed record holding the encodings of
vs: control word, payload, identical control word. -/
def recordFrame {α : Type} (W : Nat) (d : Dtype α) (vs : List α) : List Nat :=
  taintedFrame W d vs ((vs.map d.enc).flatten).length

theorem encodeLE_length (W : Nat) : ∀ n, (encodeLE W n).length = W := by
  induction W with
  | zero => intro n; rfl
  | succ W ih => intro n; simp [encodeLE, ih]

theorem decodeLE_encodeLE : ∀ (W n : Nat), n < 2 ^ (8 * W) → decodeLE (encodeLE W n) = n
  | 0, n, h => by
    have : n = 0 := by simpa using Nat.lt_one_iff.mp (by simpa using h)
    simp [encodeLE, decodeLE, this]
  | W + 1, n, h => by
    have h256 : n / 256 < 2 ^ (8 * W) := by
      apply Nat.div_lt_of_lt_mul
      calc n < 2 ^ (8 * (W + 1)) := h
        _ = 256 * 2 ^ (8 * W) := by rw [Nat.mul_add, pow_add]; ring
    simp only [encodeLE, decodeLE, decodeLE_encodeLE W (n / 256) h256]
    omega

theorem toSigned_of_lt {W u : Nat} (h : u < 2 ^ (8 * W - 1)) : toSigned W u = (u : Int) := by
  simp [toSigned, h]

theorem lt_of_le_iinfoMax {W n : Nat} (h : n ≤ iinfoMax W) : n < 2 ^ (8 * W - 1) := by
  have hpos : 0 < 2 ^ (8 * W - 1) := Nat.pos_pow_of_pos _ (by norm_num)
  unfold iinfoMax at h
  omega

theorem lt_pow_of_le_iinfoMax {W n : Nat} (h : n ≤ iinfoMax W) : n < 2 ^ (8 * W) := by
  have h1 := lt_of_le_iinfoMax h
  exact lt_of_lt_of_le h1 (Nat.pow_le_pow_right (by norm_num) (by omega))

theorem readControl_append (W n : Nat) (rest : List Nat) (h : n < 2 ^ (8 * W - 1)) :
    readControl W (encodeLE W n ++ rest) = Except.ok ((n : Int), rest) := by
  have hlen : (encodeLE W n).length = W := encodeLE_length W n
  have hdec : n < 2 ^ (8 * W) :=
    lt_of_lt_of_le h (Nat.pow_le_pow_right (by norm_num) (by omega))
  unfold readControl
  rw [if_neg (by simp [List.length_append, hlen])]
  rw [List.take_left' hlen, List.drop_left' hlen,
    decodeLE_encodeLE W n hdec, toSigned_of_lt h]

theorem fmod_natCast (m n : Nat) : Int.fmod (m : Int) (n : Int) = ((m % n : Nat) : Int) :=
  (Int.ofNat_fmod m n).symm

theorem fdiv_natCast (m n : Nat) : Int.fdiv (m : Int) (n : Int) = ((m / n : Nat) : Int) :=
  (Int.ofNat_fdiv m n).symm

theorem flatten_map_enc_length {α : Type} (d : Dtype α) (vs : List α) :
    ((vs.map d.enc).flatten).length = vs.length * d.itemsize := by
  induction vs with
  | nil => simp
  | cons v vs ih =>
    simp only [List.map_cons, List.flatten_cons, List.length_append, ih,
      d.enc_length, List.length_cons]
    ring

theorem readItems_exact {α : Type} (d : Dtype α) (vs : List α) (rest : List Nat) :
    readItems d vs.length ((vs.map d.enc).flatten ++ rest) = (vs, rest) := by
  induction vs with
  | nil => simp [readItems]
  | cons v vs ih =>
    have hlen : (d.enc v).length = d.itemsize := d.enc_length v
    have hs : ((v :: vs).map d.enc).flatten ++ rest
        = d.enc v ++ ((vs.map d.enc).flatten ++ rest) := by
      simp [List.append_assoc]
    rw [List.length_cons, hs]
    have hge : ¬ ((d.enc v ++ ((vs.map d.enc).flatten ++ rest)).length < d.itemsize) := by
      simp [List.length_append, hlen]
    rw [readItems, if_neg hge, List.take_left' hlen, List.drop_left' hlen, d.dec_enc, ih]

theorem readTail_eq {α : Type} (W n : Nat) (data : ReadResult α) (rest : List Nat)
    (h : n < 2 ^ (8 * W - 1)) :
    readTail W (n : Int) data (encodeLE W n ++ rest) = Except.ok (data, rest) := by
  unfold readTail
  rw [readControl_append W n rest h]
  simp

theorem readTail_ne {α : Type} (W n n2 : Nat) (data : ReadResult α) (rest : List Nat)
    (h2 : n2 < 2 ^ (8 * W - 1)) (hne : n ≠ n2) :
    readTail W (n : Int) data (encodeLE W n2 ++ rest) =
      Except.error (PyErr.fioErr "Record head and tail mismatch") := by
  unfold readTail
  rw [readControl_append W n2 rest h2]
  simp [hne]

theorem readBody_zero {α : Type} (W : Nat) (d : Dtype α) (s1 : List Nat) :
    readBody W d 0 s1 =
      Except.error (PyErr.indexErr "index 0 is out of bounds for axis 0 with size 0") := by
  unfold readBody
  rw [Int.zero_fmod, Int.zero_fdiv]
  simp [countOf, readItems]

theorem readBody_single {α : Type} (W : Nat) (d : Dtype α) (v : α) (rest : List Nat) :
    readBody W d (d.itemsize : Int) (d.enc v ++ rest) =
      readTail W (d.itemsize : Int) (ReadResult.scalar v) rest := by
  have h1 : readItems d 1 (d.enc v ++ rest) = ([v], rest) := by
    simpa using readItems_exact d [v] rest
  unfold readBody
  rw [fmod_natCast, fdiv_natCast, Nat.mod_self, Nat.div_self d.itemsize_pos]
  rw [if_neg (by simp)]
  have hc : countOf (1 : Int) (d.enc v ++ rest) d.itemsize = 1 := by
    unfold countOf
    rw [if_neg (by norm_num)]
    rfl
  simp [hc, h1]

theorem readBody_many {α : Type} (W : Nat) (d : Dtype α) (v v2 : α) (vs : List α)
    (rest : List Nat) :
    readBody W d (((v :: v2 :: vs).length * d.itemsize : Nat) : Int)
        (((v :: v2 :: vs).map d.enc).flatten ++ rest) =
      readTail W (((v :: v2 :: vs).length * d.itemsize : Nat) : Int)
        (ReadResult.array (v :: v2 :: vs)) rest := by
  have hitems := readItems_exact d (v :: v2 :: vs) rest
  have hlen : 1 < (v :: v2 :: vs).length := by
    simp only [List.length_cons]
    omega
  have hgt : (1 : Int) < ((v :: v2 :: vs).length : Int) := by exact_mod_cast hlen
  unfold readBody
  rw [fmod_natCast, fdiv_natCast, Nat.mul_mod_left, Nat.mul_div_cancel _ d.itemsize_pos]
  rw [if_neg (by simp)]
  have hc : countOf (((v :: v2 :: vs).length : Nat) : Int)
      (((v :: v2 :: vs).map d.enc).flatten ++ rest) d.itemsize = (v :: v2 :: vs).length := by
    unfold countOf
    rw [if_neg (not_lt.mpr (Int.natCast_nonneg _))]
    exact Int.toNat_ofNat _
  simp only [hc, hitems, hgt, if_true]

theorem read_record_tainted {α : Type} (rmode : String) (W : Nat) (d : Dtype α)
    (vs : List α) (n2 : Nat) (hr : rmode = "r" ∨ rmode = "rb")
    (hmax : vs.length * d.itemsize ≤ iinfoMax W) :
    read_record rmode W d (taintedFrame W d vs n2) =
      readBody W d ((vs.length * d.itemsize : Nat) : Int)
        ((vs.map d.enc).flatten ++ encodeLE W n2) := by
  have hlt : vs.length * d.itemsize < 2 ^ (8 * W - 1) := lt_of_le_iinfoMax hmax
  have hflat := flatten_map_enc_length d vs
  unfold read_record taintedFrame
  rw [if_neg (by rcases hr with h | h <;> subst h <;> simp), List.append_assoc, hflat,
    readControl_append W _ _ hlt]

theorem sumNbytes_map (ps : List (List Nat)) :
    sumNbytes (ps.map PyBuf.ndarray) = Except.ok ((ps.map List.length).sum) := by
  induction ps with
  | nil => rfl
  | cons p ps ih => simp [sumNbytes, PyBuf.nbytesAttr, ih]

theorem emitAll_map (ps : List (List Nat)) :
    emitAll (ps.map PyBuf.ndarray) = (ps.flatten, none) := by
  induction ps with
  | nil => rfl
  | cons p ps ih => simp [emitAll, PyBuf.tofileBytes, ih]

theorem write_ndarray_ok (mode : String) (W : Nat) (p : List Nat)
    (hmode : mode = "w" ∨ mode = "wb") (hmax : p.length ≤ iinfoMax W) :
    write_ndarray mode W (PyBuf.ndarray p) =
      (encodeLE W p.length ++ p ++ encodeLE W p.length, none) := by
  rcases hmode with h | h <;> subst h <;> simp [write_ndarray, not_lt.mpr hmax]

theorem read_frame_nil {α : Type} (rmode : String) (W : Nat) (d : Dtype α)
    (hr : rmode = "r" ∨ rmode = "rb") :
    read_record rmode W d (recordFrame W d ([] : List α)) =
      Except.error (PyErr.indexErr "index 0 is out of bounds for axis 0 with size 0") := by
  rw [recordFrame, read_record_tainted rmode W d ([] : List α) _ hr (by simp)]
  simp only [List.map_nil, List.flatten_nil, List.length_nil, Nat.zero_mul, Nat.cast_zero,
    List.nil_append]
  exact readBody_zero W d _

theorem read_frame_single {α : Type} (rmode : String) (W : Nat) (d : Dtype α) (v : α)
    (hr : rmode = "r" ∨ rmode = "rb") (hmax : d.itemsize ≤ iinfoMax W) :
    read_record rmode W d (recordFrame W d [v]) = Except.ok (ReadResult.scalar v, []) := by
  have hmax1 : ([v] : List α).length * d.itemsize ≤ iinfoMax W := by simpa using hmax
  have hflat : (([v] : List α).map d.enc).flatten = d.enc v := by simp
  have hflatlen : ((([v] : List α).map d.enc).flatten).length = d.itemsize := by
    simp [d.enc_length]
  rw [recordFrame, read_record_tainted rmode W d [v] _ hr hmax1, hflatlen, hflat]
  simp only [List.length_singleton, Nat.one_mul]
  rw [readBody_single, ← List.append_nil (encodeLE W d.itemsize)]
  exact readTail_eq W _ _ _ (lt_of_le_iinfoMax hmax)

theorem read_frame_many {α : Type} (rmode : String) (W : Nat) (d : Dtype α) (v v2 : α)
    (vs : List α) (hr : rmode = "r" ∨ rmode = "rb")
    (hmax : (v :: v2 :: vs).length * d.itemsize ≤ iinfoMax W) :
    read_record rmode W d (recordFrame W d (v :: v2 :: vs)) =
      Except.ok (ReadResult.array (v :: v2 :: vs), []) := by
  have hflat := flatten_map_enc_length d (v :: v2 :: vs)
  rw [recordFrame, read_record_tainted rmode W d _ _ hr hmax, hflat, readBody_many,
    ← List.append_nil (encodeLE W ((v :: v2 :: vs).length * d.itemsize))]
  exact readTail_eq W _ _ _ (lt_of_le_iinfoMax hmax)

theorem read_tainted_many_ne {α : Type} (rmode : String) (W : Nat) (d : Dtype α) (v v2 : α)
    (vs : List α) (n2 : Nat) (hr : rmode = "r" ∨ rmode = "rb")
    (hmax : (v :: v2 :: vs).length * d.itemsize ≤ iinfoMax W) (hn2 : n2 ≤ iinfoMax W)
    (hne : (v :: v2 :: vs).length * d.itemsize ≠ n2) :
    read_record rmode W d (taintedFrame W d (v :: v2 :: vs) n2) =
      Except.error (PyErr.fioErr "Record head and tail mismatch") := by
  rw [read_record_tainted rmode W d _ n2 hr hmax, readBody_many,
    ← List.append_nil (encodeLE W n2)]
  exact readTail_ne W _ n2 _ _ (lt_of_le_iinfoMax hn2) hne

theorem read_tainted_single_ne {α : Type} (rmode : String) (W : Nat) (d : Dtype α) (v : α)
    (n2 : Nat) (hr : rmode = "r" ∨ rmode = "rb")
    (hmax : d.itemsize ≤ iinfoMax W) (hn2 : n2 ≤ iinfoMax W) (hne : d.itemsize ≠ n2) :
    read_record rmode W d (taintedFrame W d [v] n2) =
      Except.error (PyErr.fioErr "Record head and tail mismatch") := by
  have hmax1 : ([v] : List α).length * d.itemsize ≤ iinfoMax W := by simpa using hmax
  have hflat : (([v] : List α).map d.enc).flatten = d.enc v := by simp
  rw [read_record_tainted rmode W d [v] n2 hr hmax1, hflat]
  simp only [List.length_singleton, Nat.one_mul]
  rw [readBody_single, ← List.append_nil (encodeLE W n2)]
  exact readTail_ne W _ n2 _ _ (lt_of_le_iinfoMax hn2) hne

/-- C1: writing any sequence of two or more values of an element type as
one record on a write-mode channel and reading that record back with the
same element type on a read-mode channel yields the original sequence in
the same order. -/
theorem c1_round_trip {α : Type} (wmode rmode : String) (W : Nat) (d : Dtype α)
    (v v2 : α) (vs : List α) (hw : wmode = "w" ∨ wmode = "wb")
    (hr : rmode = "r" ∨ rmode = "rb")
    (hmax : (v :: v2 :: vs).length * d.itemsize ≤ iinfoMax W) :
    write_ndarray wmode W (PyBuf.ndarray (((v :: v2 :: vs).map d.enc).flatten)) =
      (recordFrame W d (v :: v2 :: vs), none) ∧
    read_record rmode W d (recordFrame W d (v :: v2 :: vs)) =
      Except.ok (ReadResult.array (v :: v2 :: vs), []) := by
  have hflat := flatten_map_enc_length d (v :: v2 :: vs)
  have hmax2 : ((((v :: v2 :: vs)).map d.enc).flatten).length ≤ iinfoMax W := by
    rw [hflat]; exact hmax
  refine ⟨?_, read_frame_many rmode W d v v2 vs hr hmax⟩
  rw [write_ndarray_ok wmode W _ hw hmax2]
  rfl

/-- C2: a successful single-buffer write of an n-byte payload emits
exactly control word n, the n payload bytes verbatim, and control word n
again; the first and last W bytes of the emitted record are bit-identical
and decode to the payload byte length. -/
theorem c2_header_trailer (mode : String) (W : Nat) (p : List Nat)
    (hmode : mode = "w" ∨ mode = "wb") (hmax : p.length ≤ iinfoMax W) :
    write_ndarray mode W (PyBuf.ndarray p) =
      (encodeLE W p.length ++ p ++ encodeLE W p.length, none) ∧
    (encodeLE W p.length ++ p ++ encodeLE W p.length).take W = encodeLE W p.length ∧
    (encodeLE W p.length ++ p ++ encodeLE W p.length).drop
        ((encodeLE W p.length ++ p ++ encodeLE W p.length).length - W) =
      encodeLE W p.length ∧
    decodeLE (encodeLE W p.length) = p.length := by
  have hlen := encodeLE_length W p.length
  refine ⟨write_ndarray_ok mode W p hmode hmax, ?_, ?_, ?_⟩
  · rw [List.append_assoc, List.take_left' hlen]
  · have htot : (encodeLE W p.length ++ p ++ encodeLE W p.length).length - W
        = (encodeLE W p.length ++ p).length := by
      simp only [List.length_append, hlen]
      omega
    rw [htot, List.drop_left]
  · exact decodeLE_encodeLE W p.length (lt_pow_of_le_iinfoMax hmax)

/-- C3 counterexample: an empty record (payload length 0, item count 0)
read with a one-byte element type does not return an empty sequence; the
scalar-unwrap branch indexes into an empty result and fails with
IndexError. -/
theorem c3_empty_record_index_error :
    read_record "rb" 4 byteDtype [0, 0, 0, 0, 0, 0, 0, 0] =
      Except.error (PyErr.indexErr "index 0 is out of bounds for axis 0 with size 0") ∧
    read_record "rb" 4 byteDtype [0, 0, 0, 0, 0, 0, 0, 0] ≠
      Except.ok (ReadResult.array ([] : List Nat), ([] : List Nat)) := by
  constructor <;> decide

/-- C3 (amended): when the computed item count is exactly 1 the single
decoded value is returned unwrapped, and for item counts of two or more
the ordered sequence of decoded elements is returned in file order; but
for an item count of 0 (empty payload) the read fails with IndexError
from unwrapping the empty result instead of returning an empty
sequence. -/
theorem c3_result_shape {α : Type} (rmode : String) (W : Nat) (d : Dtype α) (v v2 : α)
    (vs : List α) (hr : rmode = "r" ∨ rmode = "rb")
    (hmax : (v :: v2 :: vs).length * d.itemsize ≤ iinfoMax W) :
    read_record rmode W d (recordFrame W d ([] : List α)) =
      Except.error (PyErr.indexErr "index 0 is out of bounds for axis 0 with size 0") ∧
    read_record rmode W d (recordFrame W d [v]) = Except.ok (ReadResult.scalar v, []) ∧
    read_record rmode W d (recordFrame W d (v :: v2 :: vs)) =
      Except.ok (ReadResult.array (v :: v2 :: vs), []) := by
  have hs : d.itemsize ≤ iinfoMax W := by
    calc d.itemsize = 1 * d.itemsize := (Nat.one_mul _).symm
      _ ≤ (v :: v2 :: vs).length * d.itemsize :=
        Nat.mul_le_mul_right _ (by simp only [List.length_cons]; omega)
      _ ≤ iinfoMax W := hmax
  exact ⟨read_frame_nil rmode W d hr, read_frame_single rmode W d v hr hs,
    read_frame_many rmode W d v v2 vs hr hmax⟩

/-- C4: the code of write_value references the unbound name x, so every
call raises NameError and writes nothing, instead of wrapping the value
into a one-element buffer and writing it as a record. -/
theorem c4_write_value_raises_name_error :
    write_value "wb" 4 (7 : Nat) byteDtype =
      ([], some (PyErr.nameErr "name x is not defined")) := rfl

/-- C5: a single-buffer write whose payload exceeds the control dtype's
maximum fails with the record-size-exceeds-maximum error and emits no
bytes, and the same check applies to the summed total of the multi-buffer
write. -/
theorem c5_overflow (mode : String) (W : Nat) (p : List Nat) (ps : List (List Nat))
    (hmode : mode = "w" ∨ mode = "wb") (hp : iinfoMax W < p.length)
    (hps : iinfoMax W < (ps.map List.length).sum) :
    write_ndarray mode W (PyBuf.ndarray p) =
      ([], some (PyErr.fioErr "Record size exceeds maximum")) ∧
    write_ndarrays mode W (PyIterable.ofList (ps.map PyBuf.ndarray)) =
      ([], some (PyErr.fioErr "Record size exceeds maximum")) := by
  constructor
  · rcases hmode with h | h <;> subst h <;> simp [write_ndarray, hp]
  · rcases hmode with h | h <;> subst h <;>
      simp [write_ndarrays, PyIterable.ofList, sumNbytes_map, hps]

/-- C6: when the trailing control word read after the payload differs
from the leading one, read_record fails with the head/tail mismatch
error (shown for one-item and many-item records); when the two control
words agree, no such error is raised and the data is returned. -/
theorem c6_mismatch {α : Type} (rmode : String) (W : Nat) (d : Dtype α) (v v2 : α)
    (vs : List α) (n2 : Nat) (hr : rmode = "r" ∨ rmode = "rb")
    (hmax : (v :: v2 :: vs).length * d.itemsize ≤ iinfoMax W) (hn2 : n2 ≤ iinfoMax W)
    (hne : (v :: v2 :: vs).length * d.itemsize ≠ n2) (hne1 : d.itemsize ≠ n2) :
    read_record rmode W d (taintedFrame W d (v :: v2 :: vs) n2) =
      Except.error (PyErr.fioErr "Record head and tail mismatch") ∧
    read_record rmode W d (taintedFrame W d [v] n2) =
      Except.error (PyErr.fioErr "Record head and tail mismatch") ∧
    read_record rmode W d (recordFrame W d (v :: v2 :: vs)) =
      Except.ok (ReadResult.array (v :: v2 :: vs), []) ∧
    read_record rmode W d (recordFrame W d [v]) = Except.ok (ReadResult.scalar v, []) := by
  have hs : d.itemsize ≤ iinfoMax W := by
    calc d.itemsize = 1 * d.itemsize := (Nat.one_mul _).symm
      _ ≤ (v :: v2 :: vs).length * d.itemsize :=
        Nat.mul_le_mul_right _ (by simp only [List.length_cons]; omega)
      _ ≤ iinfoMax W := hmax
  exact ⟨read_tainted_many_ne rmode W d v v2 vs n2 hr hmax hn2 hne,
    read_tainted_single_ne rmode W d v n2 hr hs hn2 hne1,
    read_frame_many rmode W d v v2 vs hr hmax,
    read_frame_single rmode W d v hr hs⟩

/-- C7: when the leading control word n is not an exact multiple of the
element size, read_record fails with the record-size error no matter what
follows the control word on the stream — in particular before any payload
bytes are read. -/
theorem c7_divisibility {α : Type} (rmode : String) (W : Nat) (d : Dtype α) (n : Nat)
    (rest : List Nat) (hr : rmode = "r" ∨ rmode = "rb") (hn : n ≤ iinfoMax W)
    (hdvd : ¬ d.itemsize ∣ n) :
    read_record rmode W d (encodeLE W n ++ rest) =
      Except.error (PyErr.fioErr "Record size not valid for data type") := by
  have hlt := lt_of_le_iinfoMax hn
  have hmod : n % d.itemsize ≠ 0 := fun h => hdvd (Nat.dvd_of_mod_eq_zero h)
  unfold read_record
  rw [if_neg (by rcases hr with h | h <;> subst h <;> simp),
    readControl_append W n rest hlt]
  show readBody W d (n : Int) rest = _
  unfold readBody
  rw [fmod_natCast, if_pos (by exact_mod_cast hmod)]

/-- C8: write_values called with a sequence of dtypes whose length
differs from the number of values fails with the arity ValueError and
emits nothing to the stream. -/
theorem c8_arity_mismatch {α : Type} (mode : String) (W : Nat) (values : List α)
    (dtypes : List (Dtype α)) (h : values.length ≠ dtypes.length) :
    write_values mode W values dtypes =
      ([], some (PyErr.valueErr "could not assign tuple to structure")) := by
  unfold write_values
  rw [if_pos h]

/-- C9: write_ndarrays performs no buffer-type check: handed a
memoryview-like object (which has nbytes but no tofile), it emits the
leading control word and only then fails with AttributeError, leaving
bytes on the stream; handed an object without nbytes it fails before
emitting, but with AttributeError, not the TypeError of the
single-buffer write. -/
theorem c9_no_buffer_check :
    write_ndarrays "wb" 4 (PyIterable.ofList [PyBuf.memview [97, 98, 99, 100]]) =
      ([4, 0, 0, 0], some (PyErr.attrErr "object has no attribute tofile")) ∧
    write_ndarrays "wb" 4 (PyIterable.ofList [PyBuf.plainObj]) =
      ([], some (PyErr.attrErr "object has no attribute nbytes")) := by
  constructor <;> decide

/-- C10: write_ndarrays traverses its iterable twice; for a list the
emitted record is well-formed (control words equal to the actual payload
byte count), while for a single-pass generator both control words carry
the first traversal's byte sum but zero payload bytes are emitted between
them. -/
theorem c10_two_traversals (mode : String) (W : Nat) (ps : List (List Nat))
    (hmode : mode = "w" ∨ mode = "wb") (hmax : (ps.map List.length).sum ≤ iinfoMax W) :
    write_ndarrays mode W (PyIterable.ofList (ps.map PyBuf.ndarray)) =
      (encodeLE W ps.flatten.length ++ ps.flatten ++ encodeLE W ps.flatten.length, none) ∧
    write_ndarrays mode W (PyIterable.ofGenerator (ps.map PyBuf.ndarray)) =
      (encodeLE W ps.flatten.length ++ encodeLE W ps.flatten.length, none) := by
  have hsum : ps.flatten.length = (ps.map List.length).sum := by
    simp [List.length_flatten]
  constructor
  · rcases hmode with h | h <;> subst h <;>
      simp [write_ndarrays, PyIterable.ofList, sumNbytes_map, emitAll_map,
        not_lt.mpr hmax, hsum]
  · rcases hmode with h | h <;> subst h <;>
      simp [write_ndarrays, PyIterable.ofGenerator, sumNbytes_map, emitAll,
        not_lt.mpr hmax, hsum]

/-- Witness for C1 at a concrete two-element byte record. -/
theorem c1_round_trip_witness :
    write_ndarray "wb" 4 (PyBuf.ndarray (((3 :: 5 :: []).map byteDtype.enc).flatten)) =
      (recordFrame 4 byteDtype (3 :: 5 :: []), none) ∧
    read_record "rb" 4 byteDtype (recordFrame 4 byteDtype (3 :: 5 :: [])) =
      Except.ok (ReadResult.array (3 :: 5 :: []), []) :=
  c1_round_trip "wb" "rb" 4 byteDtype 3 5 [] (Or.inr rfl) (Or.inr rfl) (by decide)

/-- Witness for C2 at a concrete one-byte payload. -/
theorem c2_header_trailer_witness :
    write_ndarray "wb" 4 (PyBuf.ndarray [7]) =
      (encodeLE 4 [7].length ++ [7] ++ encodeLE 4 [7].length, none) ∧
    (encodeLE 4 [7].length ++ [7] ++ encodeLE 4 [7].length).take 4 = encodeLE 4 [7].length ∧
    (encodeLE 4 [7].length ++ [7] ++ encodeLE 4 [7].length).drop
        ((encodeLE 4 [7].length ++ [7] ++ encodeLE 4 [7].length).length - 4) =
      encodeLE 4 [7].length ∧
    decodeLE (encodeLE 4 [7].length) = [7].length :=
  c2_header_trailer "wb" 4 [7] (Or.inr rfl) (by decide)

/-- Witness for the amended C3 at concrete zero-, one- and two-element
byte records. -/
theorem c3_result_shape_witness :
    read_record "rb" 4 byteDtype (recordFrame 4 byteDtype ([] : List Nat)) =
      Except.error (PyErr.indexErr "index 0 is out of bounds for axis 0 with size 0") ∧
    read_record "rb" 4 byteDtype (recordFrame 4 byteDtype [1]) =
      Except.ok (ReadResult.scalar 1, []) ∧
    read_record "rb" 4 byteDtype (recordFrame 4 byteDtype (1 :: 2 :: [])) =
      Except.ok (ReadResult.array (1 :: 2 :: []), []) :=
  c3_result_shape "rb" 4 byteDtype 1 2 [] (Or.inr rfl) (by decide)

/-- Witness for C5 at a payload of 2^31 bytes against the 4-byte control
width. -/
theorem c5_overflow_witness :
    write_ndarray "wb" 4 (PyBuf.ndarray (List.replicate (2 ^ 31) 0)) =
      ([], some (PyErr.fioErr "Record size exceeds maximum")) ∧
    write_ndarrays "wb" 4 (PyIterable.ofList ([List.replicate (2 ^ 31) 0].map PyBuf.ndarray)) =
      ([], some (PyErr.fioErr "Record size exceeds maximum")) :=
  c5_overflow "wb" 4 (List.replicate (2 ^ 31) 0) [List.replicate (2 ^ 31) 0] (Or.inr rfl)
    (by norm_num [iinfoMax]) (by norm_num [iinfoMax])

/-- Witness for C6 at concrete records with trailer 0 against payload
lengths 2 and 1. -/
theorem c6_mismatch_witness :
    read_record "rb" 4 byteDtype (taintedFrame 4 byteDtype (5 :: 6 :: []) 0) =
      Except.error (PyErr.fioErr "Record head and tail mismatch") ∧
    read_record "rb" 4 byteDtype (taintedFrame 4 byteDtype [5] 0) =
      Except.error (PyErr.fioErr "Record head and tail mismatch") ∧
    read_record "rb" 4 byteDtype (recordFrame 4 byteDtype (5 :: 6 :: [])) =
      Except.ok (ReadResult.array (5 :: 6 :: []), []) ∧
    read_record "rb" 4 byteDtype (recordFrame 4 byteDtype [5]) =
      Except.ok (ReadResult.scalar 5, []) :=
  c6_mismatch "rb" 4 byteDtype 5 6 [] 0 (Or.inr rfl) (by decide) (by decide) (by decide)
    (by decide)

/-- Witness for C7: a 10-byte record read with a 3-byte element type. -/
theorem c7_divisibility_witness :
    read_record "rb" 4 tripleDtype (encodeLE 4 10 ++ (List.replicate 10 7 ++ encodeLE 4 10)) =
      Except.error (PyErr.fioErr "Record size not valid for data type") :=
  c7_divisibility "rb" 4 tripleDtype 10 (List.replicate 10 7 ++ encodeLE 4 10) (Or.inr rfl)
    (by decide) (by decide)

/-- Witness for C8: three values against a single-dtype descriptor
sequence. -/
theorem c8_arity_mismatch_witness :
    write_values "wb" 4 [1, 2, 3] [byteDtype] =
      ([], some (PyErr.valueErr "could not assign tuple to structure")) :=
  c8_arity_mismatch "wb" 4 [1, 2, 3] [byteDtype] (by decide)

/-- Witness for C10 at a concrete two-buffer input. -/
theorem c10_two_traversals_witness :
    write_ndarrays "wb" 4 (PyIterable.ofList ([[1, 2], [3]].map PyBuf.ndarray)) =
      (encodeLE 4 [[1, 2], [3]].flatten.length ++ [[1, 2], [3]].flatten ++
        encodeLE 4 [[1, 2], [3]].flatten.length, none) ∧
    write_ndarrays "wb" 4 (PyIterable.ofGenerator ([[1, 2], [3]].map PyBuf.ndarray)) =
      (encodeLE 4 [[1, 2], [3]].flatten.length ++ encodeLE 4 [[1, 2], [3]].flatten.length,
        none) :=
  c10_two_traversals "wb" 4 [[1, 2], [3]] (Or.inr rfl) (by decide)
